import Mathlib

set_option maxRecDepth 16384

/-!
Shallow embedding of the donation workflow of the blood-bank backend
(controllers/acceptDonation.controllers.ts): the `acceptDonation`,
`rejectDonation` and `getBloodUnits` handlers, together with the zod
input schema, the JavaScript date arithmetic used for expiry dates, and
the external effects (store transaction, certificate generation, upload,
temp-file cleanup) modelled as explicit oracles.
-/

/-! ## Civil dates and the JavaScript `setDate` arithmetic -/

/-- A proleptic-Gregorian calendar date, as JavaScript `Date` exposes it
(year, 1-based month, 1-based day of month). -/
structure CivilDate where
  year : Int
  month : Int
  day : Int
deriving DecidableEq, Repr

/-- Days since 1970-01-01 of a civil date (Gregorian, standard
era-based conversion, matching the JavaScript `Date` internal day count). -/
def daysFromCivil (c : CivilDate) : Int :=
  let y : Int := c.year - (if c.month ≤ 2 then 1 else 0)
  let era : Int := (if 0 ≤ y then y else y - 399) / 400
  let yoe : Int := y - era * 400
  let mp : Int := c.month + (if 2 < c.month then -3 else 9)
  let doy : Int := (153 * mp + 2) / 5 + c.day - 1
  let doe : Int := yoe * 365 + yoe / 4 - yoe / 100 + doy
  era * 146097 + doe - 719468

/-- Civil date of a days-since-1970 count (inverse conversion). -/
def civilFromDays (z0 : Int) : CivilDate :=
  let z : Int := z0 + 719468
  let era : Int := (if 0 ≤ z then z else z - 146096) / 146097
  let doe : Int := z - era * 146097
  let yoe : Int := (doe - doe / 1460 + doe / 36524 - doe / 146096) / 365
  let y : Int := yoe + era * 400
  let doy : Int := doe - (365 * yoe + yoe / 4 - yoe / 100)
  let mp : Int := (5 * doy + 2) / 153
  let d : Int := doy - (153 * mp + 2) / 5 + 1
  let m : Int := mp + (if mp < 10 then 3 else -9)
  ⟨y + (if m ≤ 2 then 1 else 0), m, d⟩

/-- Adding a number of days to a civil date. -/
def addDays (c : CivilDate) (n : Int) : CivilDate :=
  civilFromDays (daysFromCivil c + n)

/-- JavaScript `d.setDate(n)`: replace the day-of-month by `n`,
normalizing overflow into later months (for the nonnegative arguments
that occur here). -/
def jsSetDate (c : CivilDate) (n : Int) : CivilDate :=
  civilFromDays (daysFromCivil ⟨c.year, c.month, 1⟩ + (n - 1))

/-- The expiry-date computation of the handler:
`expiryDate.setDate(donationDate.getDate() + expiryDays)`, where both
dates hold the current date, and a fractional `expiryDays` is truncated
by `setDate` (ToInteger).  `expiryDays` is validated to `[1, 42]`, so
truncation towards zero is the floor. -/
def codeExpiryDate (donationDate : CivilDate) (expiryDays : ℚ) : CivilDate :=
  jsSetDate donationDate (⌊(donationDate.day : ℚ) + expiryDays⌋)

/-! ## Data model (Prisma rows) -/

structure DonationRequest where
  id : String
  donorId : String
  patientId : String
  bloodBankId : String
  donor : String
  donorBloodType : String
  urgencyLevel : Option String
  status : String
  certificateUrl : Option String
deriving DecidableEq, Repr

structure BloodUnit where
  unitNumber : String
  donationRequestId : String
  donorId : String
  donorName : String
  donorBloodType : String
  bloodBankId : String
  bloodBankName : String
  donationDate : CivilDate
  expiryDate : CivilDate
  volume : Nat
  status : String
  barcode : String
  notes : Option String
deriving DecidableEq, Repr

structure BloodBank where
  id : String
  name : String
  address : Option String
deriving DecidableEq, Repr

structure Donor where
  id : String
  name : String
  email : String
  phone : String
  age : Nat
deriving DecidableEq, Repr

structure Patient where
  id : String
  bloodType : String
deriving DecidableEq, Repr

/-- The persisted state visible to the three handlers. -/
structure DB where
  donationRequests : List DonationRequest
  bloodUnits : List BloodUnit
  bloodBanks : List BloodBank
  donors : List Donor
  patients : List Patient
deriving DecidableEq, Repr

/-! ## zod input schema (`acceptDonationSchema`) -/

def isHexDigit (c : Char) : Bool :=
  c.isDigit || ('a' ≤ c && c ≤ 'f') || ('A' ≤ c && c ≤ 'F')

/-- zod v4 `z.uuid()`: an RFC 4122/9562 UUID — hex groups 8-4-4-4-12 with
version nibble in `1`-`8` and variant nibble in `8,9,a,b` — or the
special nil / max UUIDs. -/
def isUuid (s : String) : Bool :=
  s = "00000000-0000-0000-0000-000000000000" ||
  s = "ffffffff-ffff-ffff-ffff-ffffffffffff" ||
  (let cs := s.toList
   cs.length = 36 &&
   (List.range 36).all fun i =>
     let c := cs.getD i ' '
     if i = 8 || i = 13 || i = 18 || i = 23 then c = '-'
     else if i = 14 then '1' ≤ c && c ≤ '8'
     else if i = 19 then c = '8' || c = '9' || c = 'a' || c = 'b' || c = 'A' || c = 'B'
     else isHexDigit c)

/-- The JSON body of `POST accept`, already shape-typed: each field is
either absent or of its JSON type (numbers kept exact as rationals). -/
structure AcceptBody where
  donationRequestId : Option String
  numberOfUnits : Option ℚ
  notes : Option String
  expiryDays : Option ℚ
deriving DecidableEq, Repr

structure ValidatedAccept where
  donationRequestId : String
  numberOfUnits : ℚ
  notes : Option String
  expiryDays : ℚ
deriving DecidableEq, Repr

/-- The failing fields of the zod schema `acceptDonationSchema`, in field
order: a required RFC-4122 uuid, `z.number().min(1).max(10)`, a string of
at most 500 characters, `z.number().min(1).max(42)`. -/
def schemaIssues (b : AcceptBody) : List String :=
  (match b.donationRequestId with
   | none => ["donationRequestId"]
   | some s => if isUuid s then [] else ["donationRequestId"]) ++
  (match b.numberOfUnits with
   | none => []
   | some q => if 1 ≤ q ∧ q ≤ 10 then [] else ["numberOfUnits"]) ++
  (match b.notes with
   | none => []
   | some s => if s.length ≤ 500 then [] else ["notes"]) ++
  (match b.expiryDays with
   | none => []
   | some q => if 1 ≤ q ∧ q ≤ 42 then [] else ["expiryDays"])

/-- `acceptDonationSchema.parse`: collects one issue per failing field
(the field path), succeeding with defaults applied otherwise. -/
def acceptDonationSchema (b : AcceptBody) : Except (List String) ValidatedAccept :=
  if (schemaIssues b).isEmpty then
    .ok { donationRequestId := b.donationRequestId.getD ""
          numberOfUnits := b.numberOfUnits.getD 1
          notes := b.notes
          expiryDays := b.expiryDays.getD 35 }
  else .error (schemaIssues b)

/-! ## Effect oracles for the external collaborators -/

/-- Outcome of `PDFService.generateDonationCertificate`: either it throws,
or it returns the path of a freshly written local temporary file. -/
inductive GenOutcome where
  | throws
  | ok (path : String)
deriving DecidableEq, Repr

/-- Outcome of `cloudinary.uploader.upload`: either it throws, or it
returns a secure URL. -/
inductive UploadOutcome where
  | throws
  | ok (url : String)
deriving DecidableEq, Repr

/-- The nondeterministic outcomes of one execution's external calls. -/
structure Env where
  txFails : Bool
  gen : GenOutcome
  upload : UploadOutcome
  certUpdateFails : Bool
deriving DecidableEq, Repr

/-- Local filesystem trace of one execution: temporary files created by
certificate generation, and the files removed by `fs.unlink`. -/
structure FsLog where
  created : List String
  unlinked : List String
deriving DecidableEq, Repr

def FsLog.empty : FsLog := ⟨[], []⟩

/-- The JSON response of `acceptDonation`, flattened. -/
structure AcceptResponse where
  status : Nat
  success : Bool
  message : String := ""
  errorMsg : String := ""
  detailFields : List String := []
  donationRequest : Option DonationRequest := none
  bloodUnits : List BloodUnit := []
  totalUnitsCreated : Nat := 0
  certificateUrl : Option String := none
deriving DecidableEq, Repr

/-! ## Store operations used by the handlers -/

/-- `prisma.donationRequest.findFirst` with the pending-and-owned filter. -/
def findPendingOwned (db : DB) (id uid : String) : Option DonationRequest :=
  db.donationRequests.find? fun r =>
    r.id = id && r.bloodBankId = uid && r.status = "pending"

/-- `prisma.bloodBanks.findUnique`. -/
def findBank (db : DB) (uid : String) : Option BloodBank :=
  db.bloodBanks.find? fun b => b.id = uid

/-- `donationRequest.update where id, data status`: sets the status of the
row(s) with that id. -/
def updateRequestStatus (db : DB) (id status : String) : DB :=
  { db with donationRequests := db.donationRequests.map fun r =>
      if r.id = id then { r with status := status } else r }

/-- `donationRequest.update where id, data certificateUrl`. -/
def setCertificateUrl (db : DB) (id url : String) : DB :=
  { db with donationRequests := db.donationRequests.map fun r =>
      if r.id = id then { r with certificateUrl := some url } else r }

/-- JavaScript `s.slice(-n)`: the last `n` characters. -/
def jsSliceLast (s : String) (n : Nat) : String :=
  s.drop (s.length - n)

/-- The number of iterations of `for (let i = 1; i <= numberOfUnits; i++)`
for a (possibly fractional) bound. -/
def unitCount (q : ℚ) : Nat := (⌊q⌋).toNat

/-- The values taken by the loop counter: `1 .. unitCount q`. -/
def unitNumbers (q : ℚ) : List Nat := (List.range (unitCount q)).map (· + 1)

/-- The BloodUnit row created at loop index `i` (fields as in the
`tx.bloodUnit.create` call). -/
def mkBloodUnit (id : String) (req : DonationRequest) (bank : BloodBank)
    (donationDate expiryDate : CivilDate) (notes : Option String) (i : Nat) :
    BloodUnit :=
  { unitNumber := toString i
    donationRequestId := id
    donorId := req.donorId
    donorName := req.donor
    donorBloodType := req.donorBloodType
    bloodBankId := bank.id
    bloodBankName := bank.name
    donationDate := donationDate
    expiryDate := expiryDate
    volume := 450
    status := "available"
    barcode := bank.name ++ "-" ++ jsSliceLast id 8 ++ "-" ++ toString i
    notes := notes }

/-- The `prisma.$transaction` body: flip the request's status to
`success` (throws if no row with that id exists) and create the units.
`.error` means the transaction threw and was rolled back, leaving the
store untouched. -/
def txAccept (env : Env) (db : DB) (id : String) (req : DonationRequest)
    (bank : BloodBank) (donationDate expiryDate : CivilDate)
    (notes : Option String) (q : ℚ) :
    Except Unit (DB × DonationRequest × List BloodUnit) :=
  if env.txFails then .error ()
  else
    match db.donationRequests.find? (fun r => r.id = id) with
    | none => .error ()
    | some cur =>
      let updated := { cur with status := "success" }
      let units := (unitNumbers q).map
        (mkBloodUnit id req bank donationDate expiryDate notes)
      let db1 := updateRequestStatus db id "success"
      .ok ({ db1 with bloodUnits := db1.bloodUnits ++ units }, updated, units)

/-! ## The `acceptDonation` handler -/

def degradedGenMsg : String :=
  " Certificate generation failed, but the donation was processed."

def missingDetailsMsg : String :=
  " Certificate could not be generated due to missing details."

def baseAcceptMsg (n : Nat) : String :=
  "Donation accepted successfully and " ++ toString n ++ " blood units created."

def ok200 (message : String) (req : DonationRequest) (units : List BloodUnit)
    (certUrl : Option String) : AcceptResponse :=
  { status := 200, success := true, message := message
    donationRequest := some req, bloodUnits := units
    totalUnitsCreated := units.length, certificateUrl := certUrl }

/-- The certificate sub-workflow (the inner try/catch/finally): donor and
patient lookups, generation, upload, URL persistence, with every failure
folded into the message and the temp file unlinked in the `finally`. -/
def certPhase (env : Env) (id : String) (donationRequest : DonationRequest)
    (db1 : DB) (updatedReq : DonationRequest) (units : List BloodUnit) :
    AcceptResponse × DB × FsLog :=
  let baseMsg := baseAcceptMsg units.length
  match db1.donors.find? (fun d => d.id = donationRequest.donorId),
        db1.patients.find? (fun p => p.id = donationRequest.patientId) with
  | some _, some _ =>
    match env.gen with
    | .throws =>
      (ok200 (baseMsg ++ degradedGenMsg) updatedReq units none, db1, .empty)
    | .ok path =>
      match env.upload with
      | .throws =>
        (ok200 (baseMsg ++ degradedGenMsg) updatedReq units none,
         db1, ⟨[path], [path]⟩)
      | .ok url =>
        if env.certUpdateFails then
          (ok200 (baseMsg ++ degradedGenMsg) updatedReq units (some url),
           db1, ⟨[path], [path]⟩)
        else
          (ok200 (baseMsg ++ " Certificate is available for download.")
             updatedReq units (some url),
           setCertificateUrl db1 id url, ⟨[path], [path]⟩)
  | _, _ =>
    (ok200 (baseMsg ++ missingDetailsMsg) updatedReq units none, db1, .empty)

/-- The handler from the blood-bank lookup on, given the request row read
by the pending-and-owned `findFirst` (a separate awaited step). -/
def acceptCore (env : Env) (uid : String) (v : ValidatedAccept)
    (today : CivilDate) (donationRequest : DonationRequest) (db : DB) :
    AcceptResponse × DB × FsLog :=
  match findBank db uid with
  | none =>
    ({ status := 404, success := false
       errorMsg := "Blood bank not found." }, db, .empty)
  | some bloodBank =>
    let donationDate := today
    let expiryDate := codeExpiryDate today v.expiryDays
    match txAccept env db v.donationRequestId donationRequest bloodBank
        donationDate expiryDate v.notes v.numberOfUnits with
    | .error _ =>
      ({ status := 500, success := false
         errorMsg := "Internal Server Error" }, db, .empty)
    | .ok (db1, updatedReq, units) =>
      certPhase env v.donationRequestId donationRequest db1 updatedReq units

/-- The full `acceptDonation` handler as a pure function of the request,
the store state and the effect oracles; returns the response, the final
store state and the filesystem trace. -/
def acceptDonation (env : Env) (user : Option String) (body : AcceptBody)
    (today : CivilDate) (db : DB) : AcceptResponse × DB × FsLog :=
  match acceptDonationSchema body with
  | .error issues =>
    ({ status := 400, success := false, errorMsg := "Invalid input data."
       detailFields := issues }, db, .empty)
  | .ok v =>
    match user with
    | none =>
      ({ status := 401, success := false
         errorMsg := "Unauthorized. Blood bank ID missing." }, db, .empty)
    | some uid =>
      match findPendingOwned db v.donationRequestId uid with
      | none =>
        ({ status := 404, success := false
           errorMsg := "Donation request not found or not pending." }, db, .empty)
      | some donationRequest =>
        acceptCore env uid v today donationRequest db

/-! ## The `rejectDonation` handler -/

structure RejectResponse where
  status : Nat
  success : Bool
  message : String := ""
  errorMsg : String := ""
  data : Option DonationRequest := none
deriving DecidableEq, Repr

/-- The `rejectDonation` handler: auth check, pending-and-owned lookup,
then a single status update to `rejected`. -/
def rejectDonation (user : Option String) (donationRequestId : String)
    (db : DB) : RejectResponse × DB :=
  match user with
  | none =>
    ({ status := 401, success := false
       errorMsg := "Unauthorized. Blood bank ID missing." }, db)
  | some uid =>
    match findPendingOwned db donationRequestId uid with
    | none =>
      ({ status := 404, success := false
         errorMsg := "Donation request not found or not pending." }, db)
    | some _ =>
      match db.donationRequests.find? (fun r => r.id = donationRequestId) with
      | none =>
        ({ status := 500, success := false
           errorMsg := "Internal Server Error" }, db)
      | some cur =>
        ({ status := 200, success := true
           message := "Donation request rejected."
           data := some { cur with status := "rejected" } },
         updateRequestStatus db donationRequestId "rejected")

/-! ## The `getBloodUnits` handler -/

/-- An Express query-string value: absent, a single string, or an array
(for a repeated parameter). -/
inductive QueryParam where
  | absent
  | str (s : String)
  | arr (l : List String)
deriving DecidableEq, Repr

/-- `if (status && typeof status === "string")`: the filter applies only
to a truthy single string (the empty string is falsy, an array is not a
string). -/
def statusFilter : QueryParam → Option String
  | .str s => if s = "" then none else some s
  | _ => none

/-- The `where` clause of the `findMany` call. -/
def unitMatches (uid : String) (filt : Option String) (u : BloodUnit) : Bool :=
  u.bloodBankId = uid && (match filt with | none => true | some s => u.status = s)

/-- Comparator of `orderBy donationDate desc`: `a` may precede `b` when
`a` is at least as recent. -/
def recentFirst (a b : BloodUnit) : Bool :=
  daysFromCivil b.donationDate ≤ daysFromCivil a.donationDate

def insertDesc (u : BloodUnit) : List BloodUnit → List BloodUnit
  | [] => [u]
  | v :: vs => if recentFirst u v then u :: v :: vs else v :: insertDesc u vs

/-- `orderBy donationDate desc` as an insertion sort. -/
def sortRecentFirst : List BloodUnit → List BloodUnit
  | [] => []
  | u :: us => insertDesc u (sortRecentFirst us)

/-- `acc[t] = (acc[t] || 0) + 1` on the object accumulated by the
`byBloodType` reduce. -/
def bumpCount (acc : List (String × Nat)) (t : String) : List (String × Nat) :=
  if (acc.lookup t).isSome then
    acc.map fun p => if p.1 = t then (p.1, p.2 + 1) else p
  else acc ++ [(t, 1)]

/-- Reading a count off the accumulated object (absent key counts 0). -/
def getCount (acc : List (String × Nat)) (t : String) : Nat :=
  (acc.lookup t).getD 0

structure UnitsSummary where
  total : Nat
  available : Nat
  used : Nat
  expired : Nat
  discarded : Nat
  byBloodType : List (String × Nat)
deriving DecidableEq, Repr

structure UnitsResponse where
  status : Nat
  success : Bool
  errorMsg : String := ""
  data : List BloodUnit := []
  summary : Option UnitsSummary := none
deriving DecidableEq, Repr

/-- The `getBloodUnits` handler: owned (optionally status-filtered) units,
most recent first, with the computed summary.  (The `include` projection
of the owning request adds read-only display fields and is omitted.) -/
def getBloodUnits (user : Option String) (statusQ : QueryParam)
    (db : DB) : UnitsResponse :=
  match user with
  | none =>
    { status := 401, success := false
      errorMsg := "Unauthorized. Blood bank ID missing." }
  | some uid =>
    let filt := statusFilter statusQ
    let units := sortRecentFirst (db.bloodUnits.filter (unitMatches uid filt))
    let summary : UnitsSummary :=
      { total := units.length
        available := (units.filter fun u => u.status = "available").length
        used := (units.filter fun u => u.status = "used").length
        expired := (units.filter fun u => u.status = "expired").length
        discarded := (units.filter fun u => u.status = "discarded").length
        byBloodType := units.foldl (fun acc u => bumpCount acc u.donorBloodType) [] }
    { status := 200, success := true, data := units, summary := some summary }

/-! ## Concrete fixtures used by witnesses and counterexamples -/

def uuid0 : String := "11111111-1111-4111-8111-111111111111"

def uuidAllOnes : String := "11111111-1111-1111-1111-111111111111"

def req0 : DonationRequest :=
  { id := uuid0, donorId := "d1", patientId := "p1", bloodBankId := "bank1"
    donor := "Don Or", donorBloodType := "O+", urgencyLevel := some "high"
    status := "pending", certificateUrl := none }

def db0 : DB :=
  { donationRequests := [req0]
    bloodUnits := []
    bloodBanks := [⟨"bank1", "CityBank", none⟩]
    donors := [⟨"d1", "Don Or", "d@x", "123", 30⟩]
    patients := [⟨"p1", "A+"⟩] }

def env0 : Env :=
  { txFails := false, gen := .ok "/tmp/cert.pdf"
    upload := .ok "https://cdn/x.pdf", certUpdateFails := false }

def envGenFail : Env := { env0 with gen := .throws }

def envUploadFail : Env := { env0 with upload := .throws }

def envTxFail : Env := { env0 with txFails := true }

def body0 : AcceptBody :=
  { donationRequestId := some uuid0, numberOfUnits := some 3
    notes := none, expiryDays := some 42 }

/-- The rational 5/2, given in normalized form so that it reduces. -/
def qHalf : ℚ := ⟨5, 2, by decide, by decide⟩

def bodyHalf : AcceptBody :=
  { donationRequestId := some uuid0, numberOfUnits := some qHalf
    notes := none, expiryDays := none }

def bodyAllOnes : AcceptBody :=
  { donationRequestId := some uuidAllOnes, numberOfUnits := some 3
    notes := none, expiryDays := some 42 }

def v0 : ValidatedAccept :=
  { donationRequestId := uuid0, numberOfUnits := 3
    notes := none, expiryDays := 42 }

def bodyBadUnits : AcceptBody :=
  { donationRequestId := some uuid0, numberOfUnits := some 20
    notes := none, expiryDays := none }

def reqAllOnes : DonationRequest := { req0 with id := uuidAllOnes }

def dbAllOnes : DB := { db0 with donationRequests := [reqAllOnes] }

def mkInvUnit (status bt : String) (day : Int) (bank : String) : BloodUnit :=
  { unitNumber := "1", donationRequestId := uuid0, donorId := "d1"
    donorName := "Don Or", donorBloodType := bt, bloodBankId := bank
    bloodBankName := "CityBank", donationDate := ⟨2024, 1, day⟩
    expiryDate := ⟨2024, 2, day⟩, volume := 450, status := status
    barcode := "b", notes := none }

def dbInv : DB :=
  { db0 with bloodUnits :=
      [ mkInvUnit "available" "O+" 3 "bank1"
      , mkInvUnit "used" "A+" 7 "bank1"
      , mkInvUnit "available" "O+" 5 "bank1"
      , mkInvUnit "expired" "B-" 2 "bank1"
      , mkInvUnit "available" "A+" 9 "otherbank" ] }

/-- The blood units materialized by a committed acceptance transaction. -/
def acceptedUnits (v : ValidatedAccept) (req : DonationRequest)
    (bank : BloodBank) (today : CivilDate) : List BloodUnit :=
  (unitNumbers v.numberOfUnits).map
    (mkBloodUnit v.donationRequestId req bank today
      (codeExpiryDate today v.expiryDays) v.notes)

/-- The store state right after the acceptance transaction commits. -/
def committedDB (db : DB) (id : String) (units : List BloodUnit) : DB :=
  let db1 := updateRequestStatus db id "success"
  { db1 with bloodUnits := db1.bloodUnits ++ units }

/-! ## Helper lemmas -/

theorem daysFromCivil_day (y m d : Int) :
    daysFromCivil ⟨y, m, d⟩ = daysFromCivil ⟨y, m, 1⟩ + (d - 1) := by
  simp only [daysFromCivil]
  ring

/-- The handler's `setDate`-based expiry computation is exactly adding
`⌊expiryDays⌋` days to the donation date. -/
theorem codeExpiryDate_eq_addDays (c : CivilDate) (q : ℚ) :
    codeExpiryDate c q = addDays c ⌊q⌋ := by
  simp only [codeExpiryDate, jsSetDate, addDays, Int.floor_int_add]
  rw [daysFromCivil_day c.year c.month c.day]
  ring_nf

theorem unitCount_natCast (N : ℕ) : unitCount (N : ℚ) = N := by
  simp [unitCount, Int.floor_natCast]

theorem certPhase_bloodUnits (env : Env) (id : String)
    (dreq : DonationRequest) (db1 : DB) (u : DonationRequest)
    (units : List BloodUnit) :
    (certPhase env id dreq db1 u units).2.1.bloodUnits = db1.bloodUnits := by
  unfold certPhase
  cases hfd : db1.donors.find? fun d => d.id = dreq.donorId <;>
    cases hfp : db1.patients.find? fun p => p.id = dreq.patientId <;>
      simp only [hfd, hfp] <;> try rfl
  cases hg : env.gen <;> simp only [hg] <;> try rfl
  cases hu : env.upload <;> simp only [hu] <;> try rfl
  by_cases hc : env.certUpdateFails <;> simp [hc, setCertificateUrl]

theorem certPhase_idStatus (env : Env) (id : String)
    (dreq : DonationRequest) (db1 : DB) (u : DonationRequest)
    (units : List BloodUnit) :
    (certPhase env id dreq db1 u units).2.1.donationRequests.map
        (fun r => (r.id, r.status))
      = db1.donationRequests.map (fun r => (r.id, r.status)) := by
  unfold certPhase
  cases hfd : db1.donors.find? fun d => d.id = dreq.donorId <;>
    cases hfp : db1.patients.find? fun p => p.id = dreq.patientId <;>
      simp only [hfd, hfp] <;> try rfl
  cases hg : env.gen <;> simp only [hg] <;> try rfl
  cases hu : env.upload <;> simp only [hu] <;> try rfl
  by_cases hc : env.certUpdateFails
  · simp [hc]
  · rw [if_neg hc]
    simp only [setCertificateUrl, List.map_map]
    apply List.map_congr_left
    intro r _
    by_cases hr : r.id = id <;> simp [hr]

theorem certPhase_resp (env : Env) (id : String)
    (dreq : DonationRequest) (db1 : DB) (u : DonationRequest)
    (units : List BloodUnit) :
    ∃ msg certUrl,
      (certPhase env id dreq db1 u units).1 = ok200 msg u units certUrl := by
  unfold certPhase
  cases hfd : db1.donors.find? fun d => d.id = dreq.donorId <;>
    cases hfp : db1.patients.find? fun p => p.id = dreq.patientId <;>
      simp only [hfd, hfp] <;> try exact ⟨_, _, rfl⟩
  cases hg : env.gen <;> simp only [hg] <;> try exact ⟨_, _, rfl⟩
  cases hu : env.upload <;> simp only [hu] <;> try exact ⟨_, _, rfl⟩
  by_cases hc : env.certUpdateFails
  · rw [if_pos hc]; exact ⟨_, _, rfl⟩
  · rw [if_neg hc]; exact ⟨_, _, rfl⟩

theorem certPhase_fs (env : Env) (id : String)
    (dreq : DonationRequest) (db1 : DB) (u : DonationRequest)
    (units : List BloodUnit) :
    (certPhase env id dreq db1 u units).2.2.unlinked
      = (certPhase env id dreq db1 u units).2.2.created := by
  unfold certPhase
  cases hfd : db1.donors.find? fun d => d.id = dreq.donorId <;>
    cases hfp : db1.patients.find? fun p => p.id = dreq.patientId <;>
      simp only [hfd, hfp] <;> try rfl
  cases hg : env.gen <;> simp only [hg] <;> try rfl
  cases hu : env.upload <;> simp only [hu] <;> try rfl
  by_cases hc : env.certUpdateFails <;> simp [hc]

theorem find_id_of_findPendingOwned {db : DB} {id uid : String}
    {req : DonationRequest} (h : findPendingOwned db id uid = some req) :
    ∃ cur, db.donationRequests.find? (fun r => r.id = id) = some cur := by
  have hmem := List.mem_of_find?_eq_some h
  have hp := List.find?_some h
  simp only [Bool.and_eq_true, decide_eq_true_eq] at hp
  have : (db.donationRequests.find? fun r => r.id = id).isSome := by
    rw [List.find?_isSome]
    exact ⟨req, hmem, by simp [hp.1.1]⟩
  rcases hopt : db.donationRequests.find? fun r => r.id = id with _ | cur
  · rw [hopt] at this; simp at this
  · exact ⟨cur, hopt⟩

theorem updateRequestStatus_id_status {db : DB} {id s : String}
    {r : DonationRequest}
    (hr : r ∈ (updateRequestStatus db id s).donationRequests)
    (hid : r.id = id) : r.status = s := by
  simp only [updateRequestStatus, List.mem_map] at hr
  obtain ⟨cur, _, hcur⟩ := hr
  by_cases h : cur.id = id
  · simp [h] at hcur; rw [← hcur]
  · simp [h] at hcur
    subst hcur
    exact absurd hid h

theorem acceptDonation_committed
    (env : Env) (uid : String) (body : AcceptBody) (today : CivilDate)
    (db : DB) (v : ValidatedAccept) (req : DonationRequest)
    (bank : BloodBank) (cur : DonationRequest)
    (hv : acceptDonationSchema body = .ok v)
    (hreq : findPendingOwned db v.donationRequestId uid = some req)
    (hbank : findBank db uid = some bank)
    (hcur : db.donationRequests.find?
        (fun r => r.id = v.donationRequestId) = some cur)
    (htx : env.txFails = false) :
    acceptDonation env (some uid) body today db =
      certPhase env v.donationRequestId req
        (committedDB db v.donationRequestId (acceptedUnits v req bank today))
        { cur with status := "success" }
        (acceptedUnits v req bank today) := by
  simp only [acceptDonation, hv, hreq, acceptCore, hbank, txAccept, htx,
    Bool.false_eq_true, if_false, hcur]
  rfl

/-! ## C1 -/

/-- C1: for every valid `numberOfUnits` N in [1,10], a successful
`acceptDonation` on a pending request owned by the caller creates exactly
N BloodUnit rows whose `unitNumber`s are "1".."N" in order, each with
status "available" and volume 450, and sets the request's status to
"success". -/
theorem accept_creates_n_units
    (env : Env) (uid : String) (body : AcceptBody) (today : CivilDate)
    (db : DB) (v : ValidatedAccept) (N : ℕ) (req : DonationRequest)
    (bank : BloodBank)
    (hv : acceptDonationSchema body = .ok v)
    (hN : v.numberOfUnits = (N : ℚ)) (hN1 : 1 ≤ N) (hN10 : N ≤ 10)
    (hreq : findPendingOwned db v.donationRequestId uid = some req)
    (hbank : findBank db uid = some bank)
    (htx : env.txFails = false) :
    ∃ units : List BloodUnit,
      (acceptDonation env (some uid) body today db).2.1.bloodUnits
          = db.bloodUnits ++ units ∧
      units.map (fun u => u.unitNumber)
          = (List.range N).map (fun j => toString (j + 1)) ∧
      units.length = N ∧
      (∀ u ∈ units, u.status = "available" ∧ u.volume = 450) ∧
      (∀ r ∈ (acceptDonation env (some uid) body today db).2.1.donationRequests,
          r.id = v.donationRequestId → r.status = "success") ∧
      (acceptDonation env (some uid) body today db).1.status = 200 := by
  obtain ⟨cur, hcur⟩ := find_id_of_findPendingOwned hreq
  rw [acceptDonation_committed env uid body today db v req bank cur hv hreq
    hbank hcur htx]
  refine ⟨acceptedUnits v req bank today, ?_, ?_, ?_, ?_, ?_, ?_⟩
  · rw [certPhase_bloodUnits]
    simp [committedDB, updateRequestStatus]
  · simp [acceptedUnits, unitNumbers, hN, unitCount_natCast, mkBloodUnit]
  · simp [acceptedUnits, unitNumbers, hN, unitCount_natCast]
  · intro u hu
    simp only [acceptedUnits, List.mem_map] at hu
    obtain ⟨i, _, rfl⟩ := hu
    exact ⟨rfl, rfl⟩
  · intro r hr hid
    have hpairs := certPhase_idStatus env v.donationRequestId req
      (committedDB db v.donationRequestId (acceptedUnits v req bank today))
      { cur with status := "success" } (acceptedUnits v req bank today)
    have hmem : (r.id, r.status) ∈
        (certPhase env v.donationRequestId req
          (committedDB db v.donationRequestId (acceptedUnits v req bank today))
          { cur with status := "success" }
          (acceptedUnits v req bank today)).2.1.donationRequests.map
            (fun r => (r.id, r.status)) :=
      List.mem_map_of_mem _ hr
    rw [hpairs] at hmem
    simp only [committedDB] at hmem
    rw [List.mem_map] at hmem
    obtain ⟨r0, hr0, hpair⟩ := hmem
    have hids : r0.id = r.id := congrArg Prod.fst hpair
    have hsts : r0.status = r.status := congrArg Prod.snd hpair
    rw [← hsts]
    exact updateRequestStatus_id_status hr0 (hids.trans hid)
  · obtain ⟨msg, curl, hresp⟩ := certPhase_resp env v.donationRequestId req
      (committedDB db v.donationRequestId (acceptedUnits v req bank today))
      { cur with status := "success" } (acceptedUnits v req bank today)
    rw [hresp]
    rfl

/-- Witness for C1 at a concrete store, body and oracle set (N = 3). -/
theorem accept_creates_n_units_witness :
    ∃ units : List BloodUnit,
      (acceptDonation env0 (some "bank1") body0 ⟨2024, 1, 1⟩ db0).2.1.bloodUnits
          = db0.bloodUnits ++ units ∧
      units.map (fun u => u.unitNumber)
          = (List.range 3).map (fun j => toString (j + 1)) ∧
      units.length = 3 ∧
      (∀ u ∈ units, u.status = "available" ∧ u.volume = 450) ∧
      (∀ r ∈ (acceptDonation env0 (some "bank1") body0 ⟨2024, 1, 1⟩
          db0).2.1.donationRequests,
          r.id = v0.donationRequestId → r.status = "success") ∧
      (acceptDonation env0 (some "bank1") body0 ⟨2024, 1, 1⟩ db0).1.status = 200 :=
  accept_creates_n_units env0 "bank1" body0 ⟨2024, 1, 1⟩ db0 v0 3 req0
    ⟨"bank1", "CityBank", none⟩ (by rfl) (by decide) (by decide) (by decide)
    (by rfl) (by rfl) (by rfl)

theorem certPhase_committed_success (env : Env) (id : String)
    (dreq u : DonationRequest) (db : DB) (units units' : List BloodUnit) :
    ∀ r ∈ (certPhase env id dreq (committedDB db id units) u
        units').2.1.donationRequests, r.id = id → r.status = "success" := by
  intro r hr hid
  have hpairs := certPhase_idStatus env id dreq (committedDB db id units) u units'
  have hmem : (r.id, r.status) ∈
      (certPhase env id dreq (committedDB db id units) u
        units').2.1.donationRequests.map (fun r => (r.id, r.status)) :=
    List.mem_map_of_mem _ hr
  rw [hpairs] at hmem
  simp only [committedDB] at hmem
  rw [List.mem_map] at hmem
  obtain ⟨r0, hr0, hpair⟩ := hmem
  have hids : r0.id = r.id := congrArg Prod.fst hpair
  have hsts : r0.status = r.status := congrArg Prod.snd hpair
  rw [← hsts]
  exact updateRequestStatus_id_status hr0 (hids.trans hid)

/-! ## C2 -/

/-- C2: the acceptance transaction is all-or-nothing — every execution
either leaves the persisted units and request statuses untouched, or
flips the request to "success" and appends all `numberOfUnits` unit rows;
and when the transaction itself fails after the preconditions pass, the
state is unchanged and the handler returns 500. -/
theorem accept_atomic
    (env : Env) (user : Option String) (body : AcceptBody)
    (today : CivilDate) (db : DB) :
    (((acceptDonation env user body today db).2.1.bloodUnits = db.bloodUnits ∧
      (acceptDonation env user body today db).2.1.donationRequests.map
          (fun r => (r.id, r.status))
        = db.donationRequests.map (fun r => (r.id, r.status))) ∨
     (∃ v : ValidatedAccept, ∃ units : List BloodUnit,
        acceptDonationSchema body = .ok v ∧
        units.length = unitCount v.numberOfUnits ∧
        (acceptDonation env user body today db).2.1.bloodUnits
          = db.bloodUnits ++ units ∧
        ∀ r ∈ (acceptDonation env user body today db).2.1.donationRequests,
          r.id = v.donationRequestId → r.status = "success")) ∧
    (∀ (uid : String) (v : ValidatedAccept) (req : DonationRequest)
        (bank : BloodBank),
      user = some uid → acceptDonationSchema body = .ok v →
      findPendingOwned db v.donationRequestId uid = some req →
      findBank db uid = some bank → env.txFails = true →
      (acceptDonation env user body today db).1.status = 500 ∧
      (acceptDonation env user body today db).2.1 = db) := by
  constructor
  · cases hs : acceptDonationSchema body with
    | error issues => left; simp [acceptDonation, hs]
    | ok v =>
      cases user with
      | none => left; simp [acceptDonation, hs]
      | some uid =>
        cases hreq : findPendingOwned db v.donationRequestId uid with
        | none => left; simp [acceptDonation, hs, hreq]
        | some req =>
          cases hbank : findBank db uid with
          | none => left; simp [acceptDonation, hs, hreq, acceptCore, hbank]
          | some bank =>
            cases htx : env.txFails with
            | true =>
              left
              simp [acceptDonation, hs, hreq, acceptCore, hbank, txAccept, htx]
            | false =>
              cases hcur : db.donationRequests.find?
                  (fun r => r.id = v.donationRequestId) with
              | none =>
                left
                simp [acceptDonation, hs, hreq, acceptCore, hbank, txAccept,
                  htx, hcur]
              | some cur =>
                right
                refine ⟨v, acceptedUnits v req bank today, rfl, ?_, ?_, ?_⟩
                · simp [acceptedUnits, unitNumbers]
                · rw [acceptDonation_committed env uid body today db v req bank
                    cur hs hreq hbank hcur htx, certPhase_bloodUnits]
                  simp [committedDB, updateRequestStatus]
                · rw [acceptDonation_committed env uid body today db v req bank
                    cur hs hreq hbank hcur htx]
                  exact certPhase_committed_success env v.donationRequestId req
                    { cur with status := "success" } db
                    (acceptedUnits v req bank today)
                    (acceptedUnits v req bank today)
  · intro uid v req bank huser hv hreq hbank htx
    subst huser
    simp [acceptDonation, hv, hreq, acceptCore, hbank, txAccept, htx]

/-- Witness for C2: with a failing transaction oracle the handler returns
500 and leaves the store exactly as it was. -/
theorem accept_atomic_witness :
    (acceptDonation envTxFail (some "bank1") body0 ⟨2024, 1, 1⟩ db0).1.status
        = 500 ∧
    (acceptDonation envTxFail (some "bank1") body0 ⟨2024, 1, 1⟩ db0).2.1 = db0 :=
  (accept_atomic envTxFail (some "bank1") body0 ⟨2024, 1, 1⟩ db0).2 "bank1" v0
    req0 ⟨"bank1", "CityBank", none⟩ rfl (by rfl) (by rfl) (by rfl) rfl

theorem schema_error_of_mem {b : AcceptBody} {f : String}
    (hm : f ∈ schemaIssues b) :
    acceptDonationSchema b = .error (schemaIssues b) := by
  have hne : (schemaIssues b).isEmpty = false := by
    cases hi : schemaIssues b with
    | nil => rw [hi] at hm; exact absurd hm (List.not_mem_nil f)
    | cons a l => rfl
  simp [acceptDonationSchema, hne]

/-! ## C3 -/

/-- C3 counterexample: `numberOfUnits = 5/2` is not an integer in 1..10
(its denominator is 2), yet validation passes and the handler answers
200, not 400 — `z.number().min(1).max(10)` never checks integrality. -/
theorem accept_nonint_units_not_400 :
    qHalf.den ≠ 1 ∧ 1 ≤ qHalf ∧ qHalf ≤ 10 ∧
    bodyHalf.numberOfUnits = some qHalf ∧
    (acceptDonation env0 (some "bank1") bodyHalf ⟨2024, 1, 1⟩ db0).1.status
      = 200 :=
  ⟨by decide, by decide, by decide, rfl, by rfl⟩

/-- C3 (amended): preconditions are checked in order and each failure
leaves the store unmutated — a malformed field (id not a uuid or absent,
`numberOfUnits` outside the interval [1,10], `expiryDays` outside
[1,42], notes over 500 characters) yields 400 with that field reported;
with a valid body a missing identity yields 401; with an identity, a
request that is absent, foreign-owned or non-pending yields the one 404
message. -/
theorem accept_precondition_order
    (env : Env) (user : Option String) (body : AcceptBody)
    (today : CivilDate) (db : DB) :
    (body.donationRequestId = none →
      (acceptDonation env user body today db).1.status = 400 ∧
      "donationRequestId" ∈ (acceptDonation env user body today db).1.detailFields ∧
      (acceptDonation env user body today db).2.1 = db) ∧
    (∀ s, body.donationRequestId = some s → isUuid s = false →
      (acceptDonation env user body today db).1.status = 400 ∧
      "donationRequestId" ∈ (acceptDonation env user body today db).1.detailFields ∧
      (acceptDonation env user body today db).2.1 = db) ∧
    (∀ q : ℚ, body.numberOfUnits = some q → ¬(1 ≤ q ∧ q ≤ 10) →
      (acceptDonation env user body today db).1.status = 400 ∧
      "numberOfUnits" ∈ (acceptDonation env user body today db).1.detailFields ∧
      (acceptDonation env user body today db).2.1 = db) ∧
    (∀ q : ℚ, body.expiryDays = some q → ¬(1 ≤ q ∧ q ≤ 42) →
      (acceptDonation env user body today db).1.status = 400 ∧
      "expiryDays" ∈ (acceptDonation env user body today db).1.detailFields ∧
      (acceptDonation env user body today db).2.1 = db) ∧
    (∀ s, body.notes = some s → 500 < s.length →
      (acceptDonation env user body today db).1.status = 400 ∧
      "notes" ∈ (acceptDonation env user body today db).1.detailFields ∧
      (acceptDonation env user body today db).2.1 = db) ∧
    (∀ v : ValidatedAccept, acceptDonationSchema body = .ok v → user = none →
      (acceptDonation env user body today db).1.status = 401 ∧
      (acceptDonation env user body today db).2.1 = db) ∧
    (∀ (v : ValidatedAccept) (uid : String),
      acceptDonationSchema body = .ok v → user = some uid →
      (∀ r ∈ db.donationRequests, r.id = v.donationRequestId →
        r.bloodBankId ≠ uid ∨ r.status ≠ "pending") →
      (acceptDonation env user body today db).1.status = 404 ∧
      (acceptDonation env user body today db).1.errorMsg
        = "Donation request not found or not pending." ∧
      (acceptDonation env user body today db).2.1 = db) := by
  refine ⟨?_, ?_, ?_, ?_, ?_, ?_, ?_⟩
  · intro hnone
    have hm : "donationRequestId" ∈ schemaIssues body := by
      simp [schemaIssues, hnone]
    simp only [acceptDonation, schema_error_of_mem hm]
    simpa using hm
  · intro s hsome hbad
    have hm : "donationRequestId" ∈ schemaIssues body := by
      simp [schemaIssues, hsome, hbad]
    simp only [acceptDonation, schema_error_of_mem hm]
    simpa using hm
  · intro q hsome hbad
    have hm : "numberOfUnits" ∈ schemaIssues body := by
      simp [schemaIssues, hsome, hbad]
    simp only [acceptDonation, schema_error_of_mem hm]
    simpa using hm
  · intro q hsome hbad
    have hm : "expiryDays" ∈ schemaIssues body := by
      simp [schemaIssues, hsome, hbad]
    simp only [acceptDonation, schema_error_of_mem hm]
    simpa using hm
  · intro s hsome hlong
    have hm : "notes" ∈ schemaIssues body := by
      simp [schemaIssues, hsome, Nat.not_le_of_lt hlong]
    simp only [acceptDonation, schema_error_of_mem hm]
    simpa using hm
  · intro v hv huser
    subst huser
    simp only [acceptDonation, hv]
    exact ⟨trivial, trivial⟩
  · intro v uid hv huser hnp
    subst huser
    have hfind : findPendingOwned db v.donationRequestId uid = none := by
      unfold findPendingOwned
      rw [List.find?_eq_none]
      intro r hr
      simp only [Bool.and_eq_true, decide_eq_true_eq, not_and]
      intro h1 h2
      rcases hnp r hr h1.1 with h | h
      · exact absurd h1.2 h
      · exact absurd h2 h
    simp only [acceptDonation, hv, hfind]
    exact ⟨trivial, trivial, trivial⟩

/-- Witness for the amended C3: `numberOfUnits = 20` is rejected with a
400 naming the field, and the store stays untouched. -/
theorem accept_precondition_order_witness :
    (acceptDonation env0 (some "bank1") bodyBadUnits ⟨2024, 1, 1⟩
        db0).1.status = 400 ∧
    "numberOfUnits" ∈ (acceptDonation env0 (some "bank1") bodyBadUnits
        ⟨2024, 1, 1⟩ db0).1.detailFields ∧
    (acceptDonation env0 (some "bank1") bodyBadUnits ⟨2024, 1, 1⟩ db0).2.1
      = db0 :=
  (accept_precondition_order env0 (some "bank1") bodyBadUnits ⟨2024, 1, 1⟩
    db0).2.2.1 20 rfl (by norm_num)

theorem committedDB_donors (db : DB) (i : String) (us : List BloodUnit) :
    (committedDB db i us).donors = db.donors := rfl

theorem committedDB_patients (db : DB) (i : String) (us : List BloodUnit) :
    (committedDB db i us).patients = db.patients := rfl

/-! ## C4 -/

/-- C4: once the transaction commits, every certificate-sub-workflow
failure (missing donor or patient details, generation throw, upload
throw) still yields a 200 response carrying a degraded-certificate
notice, never rolls the commit back, and in the generation-throw case
`certificateUrl` is null. -/
theorem accept_cert_failure_still_200
    (env : Env) (uid : String) (body : AcceptBody) (today : CivilDate)
    (db : DB) (v : ValidatedAccept) (req : DonationRequest)
    (bank : BloodBank)
    (hv : acceptDonationSchema body = .ok v)
    (hreq : findPendingOwned db v.donationRequestId uid = some req)
    (hbank : findBank db uid = some bank)
    (htx : env.txFails = false) :
    (acceptDonation env (some uid) body today db).1.status = 200 ∧
    (acceptDonation env (some uid) body today db).1.success = true ∧
    ((acceptDonation env (some uid) body today db).2.1.bloodUnits
        = db.bloodUnits ++ acceptedUnits v req bank today ∧
      ∀ r ∈ (acceptDonation env (some uid) body today db).2.1.donationRequests,
        r.id = v.donationRequestId → r.status = "success") ∧
    ((db.donors.find? (fun d => d.id = req.donorId) = none ∨
      db.patients.find? (fun p => p.id = req.patientId) = none) →
      (acceptDonation env (some uid) body today db).1.message
          = baseAcceptMsg (acceptedUnits v req bank today).length
            ++ missingDetailsMsg ∧
      (acceptDonation env (some uid) body today db).1.certificateUrl = none) ∧
    (∀ (d : Donor) (p : Patient),
      db.donors.find? (fun x => x.id = req.donorId) = some d →
      db.patients.find? (fun x => x.id = req.patientId) = some p →
      env.gen = .throws →
      (acceptDonation env (some uid) body today db).1.message
          = baseAcceptMsg (acceptedUnits v req bank today).length
            ++ degradedGenMsg ∧
      (acceptDonation env (some uid) body today db).1.certificateUrl = none) ∧
    (∀ (d : Donor) (p : Patient) (path : String),
      db.donors.find? (fun x => x.id = req.donorId) = some d →
      db.patients.find? (fun x => x.id = req.patientId) = some p →
      env.gen = .ok path → env.upload = .throws →
      (acceptDonation env (some uid) body today db).1.message
          = baseAcceptMsg (acceptedUnits v req bank today).length
            ++ degradedGenMsg ∧
      (acceptDonation env (some uid) body today db).1.certificateUrl = none) := by
  obtain ⟨cur, hcur⟩ := find_id_of_findPendingOwned hreq
  rw [acceptDonation_committed env uid body today db v req bank cur hv hreq
    hbank hcur htx]
  refine ⟨?_, ?_, ⟨?_, ?_⟩, ?_, ?_, ?_⟩
  · obtain ⟨msg, curl, hresp⟩ := certPhase_resp env v.donationRequestId req
      (committedDB db v.donationRequestId (acceptedUnits v req bank today))
      { cur with status := "success" } (acceptedUnits v req bank today)
    rw [hresp]; rfl
  · obtain ⟨msg, curl, hresp⟩ := certPhase_resp env v.donationRequestId req
      (committedDB db v.donationRequestId (acceptedUnits v req bank today))
      { cur with status := "success" } (acceptedUnits v req bank today)
    rw [hresp]; rfl
  · rw [certPhase_bloodUnits]
    simp [committedDB, updateRequestStatus]
  · exact certPhase_committed_success env v.donationRequestId req
      { cur with status := "success" } db (acceptedUnits v req bank today)
      (acceptedUnits v req bank today)
  · intro h
    rcases h with h | h
    · simp only [certPhase, committedDB_donors, committedDB_patients, h]
      exact ⟨rfl, rfl⟩
    · cases hd : db.donors.find? fun x => x.id = req.donorId <;>
        simp only [certPhase, committedDB_donors, committedDB_patients, h, hd] <;>
          exact ⟨rfl, rfl⟩
  · intro d p hd hp hg
    simp only [certPhase, committedDB_donors, committedDB_patients, hd, hp, hg]
    exact ⟨rfl, rfl⟩
  · intro d p path hd hp hg hu
    simp only [certPhase, committedDB_donors, committedDB_patients, hd, hp,
      hg, hu]
    exact ⟨rfl, rfl⟩

/-- Witness for C4: with a generation throw, the concrete run answers 200
with the degraded message, a null certificate URL, and the commit kept. -/
theorem accept_cert_failure_still_200_witness :
    (acceptDonation envGenFail (some "bank1") body0 ⟨2024, 1, 1⟩ db0).1.status
        = 200 ∧
    (acceptDonation envGenFail (some "bank1") body0 ⟨2024, 1, 1⟩
        db0).1.certificateUrl = none ∧
    (acceptDonation envGenFail (some "bank1") body0 ⟨2024, 1, 1⟩ db0).1.message
        = baseAcceptMsg 3 ++ degradedGenMsg := by
  have h := accept_cert_failure_still_200 envGenFail "bank1" body0 ⟨2024, 1, 1⟩
    db0 v0 req0 ⟨"bank1", "CityBank", none⟩ (by rfl) (by rfl) (by rfl) rfl
  have hd := h.2.2.2.2.1 ⟨"d1", "Don Or", "d@x", "123", 30⟩ ⟨"p1", "A+"⟩
    (by rfl) (by rfl) rfl
  exact ⟨h.1, hd.2, by rw [hd.1]; rfl⟩

/-! ## C5 -/

/-- C5: on every execution path, the set of temporary files removed by
`fs.unlink` is exactly the set of temporary files created by certificate
generation — the temp file, when created, is deleted exactly once, and
nothing is deleted when none was created. -/
theorem accept_temp_file_cleanup (env : Env) (user : Option String)
    (body : AcceptBody) (today : CivilDate) (db : DB) :
    (acceptDonation env user body today db).2.2.unlinked
      = (acceptDonation env user body today db).2.2.created := by
  cases hs : acceptDonationSchema body with
  | error issues => simp [acceptDonation, hs, FsLog.empty]
  | ok v =>
    cases user with
    | none => simp [acceptDonation, hs, FsLog.empty]
    | some uid =>
      cases hreq : findPendingOwned db v.donationRequestId uid with
      | none => simp [acceptDonation, hs, hreq, FsLog.empty]
      | some req =>
        cases hbank : findBank db uid with
        | none => simp [acceptDonation, hs, hreq, acceptCore, hbank, FsLog.empty]
        | some bank =>
          cases htx : env.txFails with
          | true =>
            simp [acceptDonation, hs, hreq, acceptCore, hbank, txAccept, htx,
              FsLog.empty]
          | false =>
            cases hcur : db.donationRequests.find?
                (fun r => r.id = v.donationRequestId) with
            | none =>
              simp [acceptDonation, hs, hreq, acceptCore, hbank, txAccept, htx,
                hcur, FsLog.empty]
            | some cur =>
              rw [acceptDonation_committed env uid body today db v req bank cur
                hs hreq hbank hcur htx]
              exact certPhase_fs env v.donationRequestId req
                (committedDB db v.donationRequestId (acceptedUnits v req bank today))
                { cur with status := "success" } (acceptedUnits v req bank today)

/-! ## C6 -/

/-- C6 counterexample: the spec scenario's literal request id
"11111111-1111-1111-1111-111111111111" fails `z.uuid()` (its variant
nibble is '1'), so accepting it returns 400 and creates no units instead
of the claimed three. -/
theorem accept_allones_scenario_rejected :
    isUuid uuidAllOnes = false ∧
    (acceptDonation env0 (some "bank1") bodyAllOnes ⟨2024, 1, 1⟩
        dbAllOnes).1.status = 400 ∧
    (acceptDonation env0 (some "bank1") bodyAllOnes ⟨2024, 1, 1⟩
        dbAllOnes).2.1.bloodUnits = [] :=
  ⟨by rfl, by rfl, by rfl⟩

/-- C6 (amended): every created unit's barcode is the bank name, the last
8 characters of the request id and the unit number joined by hyphens, and
its expiry date is the donation date plus `⌊expiryDays⌋` days; the
concrete scenario holds for an RFC-4122-conforming id ending in
"11111111" (the literal all-ones id itself is rejected with 400). -/
theorem accept_barcode_expiry
    (env : Env) (uid : String) (body : AcceptBody) (today : CivilDate)
    (db : DB) (v : ValidatedAccept) (req : DonationRequest)
    (bank : BloodBank)
    (hv : acceptDonationSchema body = .ok v)
    (hreq : findPendingOwned db v.donationRequestId uid = some req)
    (hbank : findBank db uid = some bank)
    (htx : env.txFails = false) :
    ∃ units : List BloodUnit,
      (acceptDonation env (some uid) body today db).2.1.bloodUnits
          = db.bloodUnits ++ units ∧
      ∀ u ∈ units,
        u.barcode = bank.name ++ "-" ++ jsSliceLast v.donationRequestId 8
            ++ "-" ++ u.unitNumber ∧
        u.expiryDate = addDays today ⌊v.expiryDays⌋ := by
  obtain ⟨cur, hcur⟩ := find_id_of_findPendingOwned hreq
  rw [acceptDonation_committed env uid body today db v req bank cur hv hreq
    hbank hcur htx]
  refine ⟨acceptedUnits v req bank today, ?_, ?_⟩
  · rw [certPhase_bloodUnits]
    simp [committedDB, updateRequestStatus]
  · intro u hu
    simp only [acceptedUnits, List.mem_map] at hu
    obtain ⟨i, _, rfl⟩ := hu
    exact ⟨rfl, codeExpiryDate_eq_addDays today v.expiryDays⟩

/-- Witness for the amended C6: the scenario with the conforming id
"11111111-1111-4111-8111-111111111111", 3 units and 42 expiry days on a
request dated 2024-01-01 yields barcodes "CityBank-11111111-1..3" and
expiry date 2024-02-12. -/
theorem accept_barcode_expiry_witness :
    (∃ units : List BloodUnit,
      (acceptDonation env0 (some "bank1") body0 ⟨2024, 1, 1⟩
          db0).2.1.bloodUnits = db0.bloodUnits ++ units ∧
      ∀ u ∈ units,
        u.barcode = "CityBank" ++ "-" ++ jsSliceLast v0.donationRequestId 8
            ++ "-" ++ u.unitNumber ∧
        u.expiryDate = addDays ⟨2024, 1, 1⟩ ⌊v0.expiryDays⌋) ∧
    (acceptDonation env0 (some "bank1") body0 ⟨2024, 1, 1⟩
        db0).2.1.bloodUnits.map (fun u => u.barcode)
      = ["CityBank-11111111-1", "CityBank-11111111-2", "CityBank-11111111-3"] ∧
    (acceptDonation env0 (some "bank1") body0 ⟨2024, 1, 1⟩
        db0).2.1.bloodUnits.map (fun u => u.expiryDate)
      = [⟨2024, 2, 12⟩, ⟨2024, 2, 12⟩, ⟨2024, 2, 12⟩] := by
  refine ⟨accept_barcode_expiry env0 "bank1" body0 ⟨2024, 1, 1⟩ db0 v0 req0
      ⟨"bank1", "CityBank", none⟩ (by rfl) (by rfl) (by rfl) rfl, by rfl, ?_⟩
  rw [acceptDonation_committed env0 "bank1" body0 ⟨2024, 1, 1⟩ db0 v0 req0
    ⟨"bank1", "CityBank", none⟩ req0 (by rfl) (by rfl) (by rfl) (by rfl) rfl]
  rw [certPhase_bloodUnits]
  simp only [acceptedUnits]
  rw [show codeExpiryDate ⟨2024, 1, 1⟩ v0.expiryDays = (⟨2024, 2, 12⟩ : CivilDate)
    from by rw [codeExpiryDate_eq_addDays]; decide]
  decide

/-! ## C7 -/

/-- C7 is violated by the code: the `status = pending` precondition is
read by a `findFirst` outside the transaction and the transactional
update is unconditional, so in the interleaving where both requests'
`findFirst` reads complete (each observing the pending row) before either
transaction runs, both acceptances commit — both answer 200 and 2·N = 6
units are created for the same request, where the claim says the loser
must observe 404. -/
theorem concurrent_double_accept :
    findPendingOwned db0 v0.donationRequestId "bank1" = some req0 ∧
    (acceptCore env0 "bank1" v0 ⟨2024, 1, 1⟩ req0 db0).1.status = 200 ∧
    (acceptCore env0 "bank1" v0 ⟨2024, 1, 1⟩ req0
        (acceptCore env0 "bank1" v0 ⟨2024, 1, 1⟩ req0 db0).2.1).1.status = 200 ∧
    (acceptCore env0 "bank1" v0 ⟨2024, 1, 1⟩ req0
        (acceptCore env0 "bank1" v0 ⟨2024, 1, 1⟩ req0 db0).2.1).2.1.bloodUnits.length
      = 6 :=
  ⟨by rfl, by rfl, by rfl, by rfl⟩

/-! ## C8 -/

theorem findPendingOwned_after_reject (db : DB) (id uid : String) :
    findPendingOwned (updateRequestStatus db id "rejected") id uid = none := by
  unfold findPendingOwned updateRequestStatus
  rw [List.find?_eq_none]
  intro r hr
  simp only [List.mem_map] at hr
  obtain ⟨cur, _, rfl⟩ := hr
  by_cases h : cur.id = id <;> simp [h]

/-- C8: rejectDonation answers 401 without an identity; with an identity
and a pending request owned by the caller it flips the status to
"rejected" and answers 200 with the updated row (and a second rejection
then answers 404); otherwise it answers the single 404 message and leaves
the store unchanged. -/
theorem reject_donation_spec (user : Option String) (id : String) (db : DB) :
    (user = none →
      (rejectDonation user id db).1.status = 401 ∧
      (rejectDonation user id db).2 = db) ∧
    (∀ (uid : String) (req : DonationRequest),
      user = some uid → findPendingOwned db id uid = some req →
      (rejectDonation user id db).1.status = 200 ∧
      (rejectDonation user id db).1.success = true ∧
      (∃ cur, db.donationRequests.find? (fun r => r.id = id) = some cur ∧
        (rejectDonation user id db).1.data
          = some { cur with status := "rejected" }) ∧
      (∀ r ∈ (rejectDonation user id db).2.donationRequests,
        r.id = id → r.status = "rejected") ∧
      (rejectDonation (some uid) id (rejectDonation user id db).2).1.status
        = 404) ∧
    (∀ uid : String, user = some uid → findPendingOwned db id uid = none →
      (rejectDonation user id db).1.status = 404 ∧
      (rejectDonation user id db).1.errorMsg
        = "Donation request not found or not pending." ∧
      (rejectDonation user id db).2 = db) := by
  refine ⟨?_, ?_, ?_⟩
  · intro huser
    subst huser
    exact ⟨rfl, rfl⟩
  · intro uid req huser hreq
    subst huser
    obtain ⟨cur, hcur⟩ := find_id_of_findPendingOwned hreq
    have hrun : rejectDonation (some uid) id db =
        ({ status := 200, success := true
           message := "Donation request rejected."
           data := some { cur with status := "rejected" } },
         updateRequestStatus db id "rejected") := by
      simp only [rejectDonation, hreq, hcur]
    rw [hrun]
    refine ⟨rfl, rfl, ⟨cur, hcur, rfl⟩, ?_, ?_⟩
    · intro r hr hid
      exact updateRequestStatus_id_status hr hid
    · simp only [rejectDonation, findPendingOwned_after_reject db id uid]
  · intro uid huser hnone
    subst huser
    simp only [rejectDonation, hnone]
    exact ⟨trivial, trivial, trivial⟩

/-- Witness for C8 on the concrete store: rejecting the pending request
succeeds with the rejected row, and rejecting it again yields 404. -/
theorem reject_donation_spec_witness :
    (rejectDonation (some "bank1") uuid0 db0).1.status = 200 ∧
    (rejectDonation (some "bank1") uuid0 db0).1.success = true ∧
    (∃ cur, db0.donationRequests.find? (fun r => r.id = uuid0) = some cur ∧
      (rejectDonation (some "bank1") uuid0 db0).1.data
        = some { cur with status := "rejected" }) ∧
    (∀ r ∈ (rejectDonation (some "bank1") uuid0 db0).2.donationRequests,
      r.id = uuid0 → r.status = "rejected") ∧
    (rejectDonation (some "bank1") uuid0
      (rejectDonation (some "bank1") uuid0 db0).2).1.status = 404 :=
  (reject_donation_spec (some "bank1") uuid0 db0).2.1 "bank1" req0 rfl (by rfl)

/-! ## Ordering and counting lemmas for the inventory query -/

theorem recentFirst_total (a b : BloodUnit) :
    recentFirst a b = true ∨ recentFirst b a = true := by
  simp only [recentFirst, decide_eq_true_eq]
  exact Int.le_total _ _

theorem recentFirst_trans {a b c : BloodUnit} (h1 : recentFirst a b = true)
    (h2 : recentFirst b c = true) : recentFirst a c = true := by
  simp only [recentFirst, decide_eq_true_eq] at *
  exact le_trans h2 h1

theorem insertDesc_perm (u : BloodUnit) (l : List BloodUnit) :
    (insertDesc u l).Perm (u :: l) := by
  induction l with
  | nil => simp [insertDesc]
  | cons v vs ih =>
    by_cases h : recentFirst u v
    · rw [insertDesc, if_pos h]
    · rw [insertDesc, if_neg h]
      exact (ih.cons v).trans (List.Perm.swap u v vs)

theorem sortRecentFirst_perm (l : List BloodUnit) :
    (sortRecentFirst l).Perm l := by
  induction l with
  | nil => simp [sortRecentFirst]
  | cons u us ih =>
    exact (insertDesc_perm u (sortRecentFirst us)).trans (ih.cons u)

theorem pairwise_insertDesc {u : BloodUnit} {l : List BloodUnit}
    (h : l.Pairwise (fun a b => recentFirst a b = true)) :
    (insertDesc u l).Pairwise (fun a b => recentFirst a b = true) := by
  induction l with
  | nil => simp [insertDesc]
  | cons v vs ih =>
    rw [List.pairwise_cons] at h
    obtain ⟨hv, hvs⟩ := h
    by_cases hc : recentFirst u v
    · rw [insertDesc, if_pos hc, List.pairwise_cons]
      refine ⟨?_, List.pairwise_cons.mpr ⟨hv, hvs⟩⟩
      intro w hw
      rcases List.mem_cons.mp hw with rfl | hw2
      · exact hc
      · exact recentFirst_trans hc (hv w hw2)
    · rw [insertDesc, if_neg hc, List.pairwise_cons]
      refine ⟨?_, ih hvs⟩
      intro w hw
      have hw' := (insertDesc_perm u vs).mem_iff.mp hw
      rcases List.mem_cons.mp hw' with rfl | hw2
      · rcases recentFirst_total w v with h1 | h1
        · exact absurd h1 hc
        · exact h1
      · exact hv w hw2

theorem sorted_sortRecentFirst (l : List BloodUnit) :
    (sortRecentFirst l).Pairwise (fun a b => recentFirst a b = true) := by
  induction l with
  | nil => simp [sortRecentFirst]
  | cons u us ih => exact pairwise_insertDesc ih

theorem lookup_bump_map (t' t : String) (acc : List (String × Nat)) :
    List.lookup t (acc.map (fun p => if p.1 = t' then (p.1, p.2 + 1) else p))
      = (List.lookup t acc).map (fun v => if t = t' then v + 1 else v) := by
  induction acc with
  | nil => rfl
  | cons p acc ih =>
    obtain ⟨k, v⟩ := p
    simp only [List.map_cons]
    by_cases hk : k = t'
    · rw [if_pos hk]
      cases hbeq : (t == k) with
      | true =>
        have ht : t = t' := (eq_of_beq hbeq).trans hk
        simp only [List.lookup, hbeq]
        simp [ht]
      | false =>
        simp [List.lookup, hbeq, ih]
    · rw [if_neg hk]
      cases hbeq : (t == k) with
      | true =>
        have ht : ¬t = t' := by
          rw [eq_of_beq hbeq]
          exact hk
        simp [List.lookup, hbeq, ht]
      | false =>
        simp [List.lookup, hbeq, ih]

theorem lookup_append (t : String) (l1 l2 : List (String × Nat)) :
    List.lookup t (l1 ++ l2) = (List.lookup t l1).or (List.lookup t l2) := by
  induction l1 with
  | nil => simp [List.lookup]
  | cons p l1 ih =>
    obtain ⟨k, v⟩ := p
    cases hbeq : (t == k) <;> simp [List.lookup, hbeq, ih]

theorem getCount_bump (acc : List (String × Nat)) (t' t : String) :
    getCount (bumpCount acc t') t
      = getCount acc t + (if t' = t then 1 else 0) := by
  unfold bumpCount getCount
  by_cases hsome : (List.lookup t' acc).isSome
  · rw [if_pos hsome, lookup_bump_map]
    cases hl : List.lookup t acc with
    | none =>
      by_cases ht : t' = t
      · subst ht
        rw [hl] at hsome
        simp at hsome
      · simp [hl, ht]
    | some v =>
      by_cases ht : t' = t
      · simp [hl, ht]
      · have ht2 : ¬t = t' := fun h => ht h.symm
        simp [hl, ht, ht2]
  · rw [if_neg hsome, lookup_append]
    cases hl : List.lookup t acc with
    | some v =>
      by_cases ht : t' = t
      · subst ht
        rw [hl] at hsome
        simp at hsome
      · simp [hl, ht]
    | none =>
      by_cases ht : t' = t
      · subst ht
        simp [hl, List.lookup]
      · have hbeq : (t == t') = false := by
          rw [beq_eq_false_iff_ne]
          exact fun h => ht h.symm
        simp [hl, List.lookup, hbeq, ht]

theorem getCount_fold (units : List BloodUnit) (acc : List (String × Nat))
    (t : String) :
    getCount (units.foldl (fun a u => bumpCount a u.donorBloodType) acc) t
      = getCount acc t + units.countP (fun u => u.donorBloodType = t) := by
  induction units generalizing acc with
  | nil => simp
  | cons u us ih =>
    rw [List.foldl_cons, ih, getCount_bump, List.countP_cons]
    by_cases h : u.donorBloodType = t <;> simp [h] <;> omega

/-! ## C9 -/

/-- C9: an authenticated inventory query returns only the caller's units,
ordered most recent first; the summary's total and per-status counts
match the returned list, `byBloodType` counts each unit once per blood
type, and with `status=available` only available units are returned with
`summary.available` equal to the returned count. -/
theorem getBloodUnits_spec (uid : String) (q : QueryParam) (db : DB) :
    (∀ u ∈ (getBloodUnits (some uid) q db).data, u.bloodBankId = uid) ∧
    ((getBloodUnits (some uid) q db).data).Pairwise
        (fun a b => recentFirst a b = true) ∧
    (∃ s : UnitsSummary, (getBloodUnits (some uid) q db).summary = some s ∧
      s.total = (getBloodUnits (some uid) q db).data.length ∧
      s.available = (getBloodUnits (some uid) q db).data.countP
          (fun u => u.status = "available") ∧
      s.used = (getBloodUnits (some uid) q db).data.countP
          (fun u => u.status = "used") ∧
      s.expired = (getBloodUnits (some uid) q db).data.countP
          (fun u => u.status = "expired") ∧
      s.discarded = (getBloodUnits (some uid) q db).data.countP
          (fun u => u.status = "discarded") ∧
      ∀ t : String, getCount s.byBloodType t
        = (getBloodUnits (some uid) q db).data.countP
            (fun u => u.donorBloodType = t)) ∧
    (q = QueryParam.str "available" →
      (∀ u ∈ (getBloodUnits (some uid) q db).data, u.status = "available") ∧
      ∃ s : UnitsSummary, (getBloodUnits (some uid) q db).summary = some s ∧
        s.available = (getBloodUnits (some uid) q db).data.length) := by
  have hdata : (getBloodUnits (some uid) q db).data
      = sortRecentFirst (db.bloodUnits.filter (unitMatches uid (statusFilter q))) :=
    rfl
  refine ⟨?_, ?_, ?_, ?_⟩
  · intro u hu
    rw [hdata] at hu
    have hu2 := (sortRecentFirst_perm _).mem_iff.mp hu
    have hm := (List.mem_filter.mp hu2).2
    simp only [unitMatches, Bool.and_eq_true, decide_eq_true_eq] at hm
    exact hm.1
  · rw [hdata]
    exact sorted_sortRecentFirst _
  · refine ⟨_, rfl, rfl, ?_, ?_, ?_, ?_, ?_⟩
    · exact (List.countP_eq_length_filter _ _).symm
    · exact (List.countP_eq_length_filter _ _).symm
    · exact (List.countP_eq_length_filter _ _).symm
    · exact (List.countP_eq_length_filter _ _).symm
    · intro t
      simpa [getCount] using getCount_fold
        (sortRecentFirst (db.bloodUnits.filter (unitMatches uid (statusFilter q))))
        [] t
  · intro hq
    subst hq
    have hstat : ∀ u ∈ (getBloodUnits (some uid) (QueryParam.str "available")
        db).data, u.status = "available" := by
      intro u hu
      rw [hdata, show statusFilter (QueryParam.str "available")
        = some "available" from rfl] at hu
      have hu2 := (sortRecentFirst_perm _).mem_iff.mp hu
      have hm := (List.mem_filter.mp hu2).2
      simp only [unitMatches, Bool.and_eq_true, decide_eq_true_eq] at hm
      exact hm.2
    refine ⟨hstat, _, rfl, ?_⟩
    have : (sortRecentFirst (db.bloodUnits.filter
          (unitMatches uid (statusFilter (QueryParam.str "available"))))).filter
            (fun u => u.status = "available")
        = sortRecentFirst (db.bloodUnits.filter
            (unitMatches uid (statusFilter (QueryParam.str "available")))) := by
      rw [List.filter_eq_self]
      intro u hu
      simp only [decide_eq_true_eq]
      exact hstat u hu
    simp only [getBloodUnits]
    rw [this]

/-- Witness for C9 on a concrete inventory with mixed statuses, blood
types and owners, queried with `status=available`. -/
theorem getBloodUnits_spec_witness :
    (∀ u ∈ (getBloodUnits (some "bank1") (QueryParam.str "available")
        dbInv).data, u.status = "available") ∧
    (∃ s : UnitsSummary, (getBloodUnits (some "bank1")
        (QueryParam.str "available") dbInv).summary = some s ∧
      s.available = (getBloodUnits (some "bank1") (QueryParam.str "available")
          dbInv).data.length) ∧
    (∀ u ∈ (getBloodUnits (some "bank1") (QueryParam.str "available")
        dbInv).data, u.bloodBankId = "bank1") ∧
    (getBloodUnits (some "bank1") (QueryParam.str "available")
        dbInv).data.length = 2 :=
  have h := getBloodUnits_spec "bank1" (QueryParam.str "available") dbInv
  ⟨(h.2.2.2 rfl).1, (h.2.2.2 rfl).2, h.1, by rfl⟩

/-! ## C10 -/

/-- C10: an absent, empty or repeated (array) `status` query parameter
applies no status filter — the response equals the unfiltered one, whose
data is exactly the caller's units (up to the date ordering) with the
summary computed over that list. -/
theorem getBloodUnits_unfiltered (uid : String) (db : DB)
    (l : List String) :
    getBloodUnits (some uid) (QueryParam.str "") db
        = getBloodUnits (some uid) QueryParam.absent db ∧
    getBloodUnits (some uid) (QueryParam.arr l) db
        = getBloodUnits (some uid) QueryParam.absent db ∧
    ((getBloodUnits (some uid) QueryParam.absent db).data).Perm
        (db.bloodUnits.filter (fun u => u.bloodBankId = uid)) ∧
    (∀ u ∈ db.bloodUnits, u.bloodBankId = uid →
      u ∈ (getBloodUnits (some uid) QueryParam.absent db).data) := by
  refine ⟨rfl, rfl, ?_, ?_⟩
  · show (sortRecentFirst (db.bloodUnits.filter (unitMatches uid none))).Perm
        (db.bloodUnits.filter (fun u => u.bloodBankId = uid))
    have hf : db.bloodUnits.filter (unitMatches uid none)
        = db.bloodUnits.filter (fun u => u.bloodBankId = uid) := by
      apply List.filter_congr
      intro u _
      simp [unitMatches]
    rw [hf]
    exact sortRecentFirst_perm _
  · intro u hu hown
    have hm : u ∈ db.bloodUnits.filter (unitMatches uid none) := by
      rw [List.mem_filter]
      exact ⟨hu, by simp [unitMatches, hown]⟩
    exact (sortRecentFirst_perm _).mem_iff.mpr hm

/-- Witness for C10: the empty-string and array query shapes give the
same response as an absent parameter on the concrete inventory, which
contains the caller's available unit. -/
theorem getBloodUnits_unfiltered_witness :
    getBloodUnits (some "bank1") (QueryParam.str "") dbInv
        = getBloodUnits (some "bank1") QueryParam.absent dbInv ∧
    getBloodUnits (some "bank1") (QueryParam.arr ["available", "used"]) dbInv
        = getBloodUnits (some "bank1") QueryParam.absent dbInv ∧
    mkInvUnit "available" "O+" 3 "bank1"
      ∈ (getBloodUnits (some "bank1") QueryParam.absent dbInv).data :=
  have h := getBloodUnits_unfiltered "bank1" dbInv ["available", "used"]
  ⟨h.1, h.2.1,
   h.2.2.2 (mkInvUnit "available" "O+" 3 "bank1") (by decide) (by rfl)⟩
